import Mathlib

/-!
Shallow embedding of the Trigger Matching & Rate-Limiting Engine of
`app/modules/ultimate_triggers.py` (class `UltimateTriggersSystem`), together
with theorems settling the specification claims about it.

Conventions of the embedding:
* Python `str` is Lean `String`; where Python string primitives are used
  (`in`, `startswith`, `endswith`, `lower`, `split`) they are embedded as
  executable functions over `List Char` with the same semantics (ASCII case
  folding, as all inputs appearing in the claims are ASCII).
* Python `float` probabilities are embedded as `ℚ`; the only operations the
  source performs on them are comparisons and multiplication by 100, which
  are exact in both representations for the values involved.
* The database tables touched by `create_trigger` are embedded as an explicit
  list of rows; `db.execute` of the INSERT re-raises on a PRIMARY KEY
  violation (see `DatabaseService.execute`, database.py lines 301-311), which
  `create_trigger`'s handler turns into a failure result.
* External capabilities (the `re` module's `search`/`compile`, the optional
  AI service, `hash`, the wall clock and the RNG stream) are fields of a
  `PyEnv` record, so every definition stays executable and deterministic.
* Helper methods `_get_chat_triggers`, `_is_on_cooldown`, `_get_today_usage`,
  `_set_cooldown` and `_update_trigger_stats` are called by
  `process_message` but are not defined anywhere in the repository; they are
  modelled from the spec (each carries a `Modelled from the spec:` comment).
-/

namespace UltimateTriggers

/-- `class TriggerType(Enum)` (ultimate_triggers.py lines 20-26). -/
inductive TriggerType where
  | EXACT
  | CONTAINS
  | STARTS_WITH
  | ENDS_WITH
  | REGEX
  | SMART
deriving DecidableEq, Repr

/-- `TriggerType.value` strings of the Python enum members. -/
def TriggerType.value : TriggerType → String
  | .EXACT => "exact"
  | .CONTAINS => "contains"
  | .STARTS_WITH => "starts"
  | .ENDS_WITH => "ends"
  | .REGEX => "regex"
  | .SMART => "smart"

/-- `@dataclass TriggerCondition` (lines 28-33). -/
structure TriggerCondition where
  type : TriggerType
  pattern : String
  case_sensitive : Bool := false
  whole_words : Bool := false
deriving DecidableEq, Repr

/-- `@dataclass TriggerResponse` (lines 35-40); the `reactions = None`
default is embedded as the empty list, which is what `create_trigger`
actually passes (`options.get` with default `[]`). -/
structure TriggerResponse where
  text : String
  reactions : List String := []
  delete_trigger : Bool := false
  forward_to : Option Int := none
deriving DecidableEq, Repr

/-- `@dataclass TriggerConfig` (lines 42-58), restricted to the fields read
by `process_message` and `create_trigger`. -/
structure TriggerConfig where
  id : String
  name : String
  chat_id : Int
  creator_id : Int
  conditions : List TriggerCondition
  responses : List TriggerResponse
  is_active : Bool := true
  cooldown_seconds : Nat := 0
  max_uses_per_day : Nat := 0
  probability : ℚ := 1
  require_mention : Bool := false
  admin_only : Bool := false
  usage_count : Nat := 0
deriving DecidableEq, Repr

/-- Names bound at module scope of ultimate_triggers.py by its import
statements (lines 9-16) plus the module-level `logger` (line 18).  Note that
`random` is *not* among them: the only `import random` in the file is local
to the body of `process_message` (line 270). -/
def moduleScopeNames : List String :=
  ["logging", "re", "asyncio", "json", "datetime", "timedelta",
   "Dict", "List", "Optional", "Any", "dataclass", "Enum", "logger"]

/-- Whether the name `random` resolves at module scope (it does not). -/
def moduleHasRandom : Bool := moduleScopeNames.contains ("random")

/-- Method names defined in the body of `class UltimateTriggersSystem`
(lines 60-386).  The methods `_get_chat_triggers`, `_is_on_cooldown`,
`_get_today_usage`, `_set_cooldown`, `_update_trigger_stats` and
`_update_chat_cache` are *called* but do not appear here (nor anywhere else
in the repository), so attribute lookup on them raises `AttributeError`. -/
def definedMethods : List String :=
  ["__init__", "initialize", "_create_tables", "create_trigger",
   "process_message", "_check_condition", "_process_response_variables"]

/-- External capabilities and ambient inputs consumed by the class. -/
structure PyEnv where
  /-- `re.search(pattern, text, IGNORECASE?)`: `.ok b` when the search ran
  and reported (no-)match, `.error e` when evaluation raised. -/
  reSearch : String → String → Bool → Except String Bool
  /-- `self.ai`: `none` when no AI service was injected; otherwise
  `generate_response` applied to (pattern, message), which may raise or
  return `none`. -/
  ai : Option (String → String → Except String (Option String))
  /-- Whether `re.compile(pattern)` succeeds. -/
  regexCompiles : String → Bool
  /-- `abs(hash(name))` of the Python interpreter. -/
  pyHash : String → Nat
  /-- Current time as seconds, used by the cooldown store. -/
  nowTs : Nat
  /-- Current calendar day key, used by the daily usage counter. -/
  today : Nat
  /-- `datetime.now().strftime` with format HH:MM. -/
  timeStr : String
  /-- `datetime.now().strftime` with format DD.MM.YYYY. -/
  dateStr : String
  /-- `random.randint(1, 100)` (would be drawn by the templater). -/
  randVal : Nat

/-! ### Python string primitives over `List Char` -/

/-- Python `s.lower()`, embedded characterwise (ASCII case folding; every
input appearing in the claims is ASCII). -/
def pyLower (s : String) : String := String.mk (s.data.map Char.toLower)

/-- Python `needle in hay` (substring test), embedded over char lists. -/
def infixB (needle : List Char) : List Char → Bool
  | [] => needle.isEmpty
  | c :: rest => needle.isPrefixOf (c :: rest) || infixB needle rest

/-- Python `needle in hay` on strings. -/
def substrB (needle hay : String) : Bool := infixB needle.data hay.data

/-- Python `text.startswith(pat)`. -/
def startsWithB (pat text : String) : Bool := pat.data.isPrefixOf text.data

/-- Python `text.endswith(pat)`. -/
def endsWithB (pat text : String) : Bool := pat.data.isSuffixOf text.data

/-- Python `s.split()`: split on whitespace runs, dropping empty pieces.
`acc` holds the characters of the word in progress, reversed. -/
def pySplitAux : List Char → List Char → List String
  | [], acc => if acc.isEmpty then [] else [String.mk acc.reverse]
  | c :: rest, acc =>
    if c.isWhitespace then
      if acc.isEmpty then pySplitAux rest [] else String.mk acc.reverse :: pySplitAux rest []
    else pySplitAux rest (c :: acc)

/-- Python `s.split()` on strings. -/
def pySplit (s : String) : List String := pySplitAux s.data []

/-- A `\w` character of the regex used by the whole-word branch
(ASCII word characters). -/
def isWordChar (c : Char) : Bool := c.isAlphanum || c == '_'

/-- Whether position `i` of `s` holds a word character (out of range counts
as non-word, like the edges of the text for `\b`). -/
def wordCharAt (s : List Char) (i : Nat) : Bool :=
  match s.get? i with
  | some c => isWordChar c
  | none => false

/-- The `\b` assertion of Python `re` at position `i`: the characters at
`i-1` and `i` disagree on word-ness (a position before the first character
counts as non-word). -/
def boundaryAt (s : List Char) (i : Nat) : Bool :=
  match i with
  | 0 => wordCharAt s 0
  | j + 1 => wordCharAt s j != wordCharAt s (j + 1)

/-- Closed-form semantics of
`re.search(r'\b' + re.escape(pat) + r'\b', text)` (line 316-319): the
search succeeds iff at some start position the escaped (hence literal)
pattern occurs with a `\b` boundary on both sides.  (The `re.IGNORECASE`
flag passed there is inert, as both arguments were already lowercased.) -/
def wholeWordSearch (pat text : List Char) : Bool :=
  (List.range (text.length + 1)).any fun i =>
    pat.isPrefixOf (text.drop i) && boundaryAt text i && boundaryAt text (i + pat.length)

/-! ### Condition Evaluator: `_check_condition` (lines 302-354) -/

/-- Body of `_check_condition` before its `except` handler: `.error` marks a
raised exception (only the `re.search` call of the REGEX branch and the AI
call of the SMART branch can raise). -/
def checkConditionExc (env : PyEnv) (c : TriggerCondition) (text : String) :
    Except String Bool :=
  let check_text := if c.case_sensitive then text else pyLower text
  let check_pattern := if c.case_sensitive then c.pattern else pyLower c.pattern
  match c.type with
  | .EXACT => .ok (check_text == check_pattern)
  | .CONTAINS =>
    if c.whole_words then
      .ok (wholeWordSearch check_pattern.data check_text.data)
    else
      .ok (substrB check_pattern check_text)
  | .STARTS_WITH => .ok (startsWithB check_pattern check_text)
  | .ENDS_WITH => .ok (endsWithB check_pattern check_text)
  | .REGEX => env.reSearch c.pattern text (!c.case_sensitive)
  | .SMART =>
    match env.ai with
    | some generate =>
      match generate c.pattern text with
      | .error e => .error e
      | .ok none => .ok false
      | .ok (some resp) => .ok (substrB ("да") (pyLower resp))
    | none =>
      let keywords := pySplit (pyLower c.pattern)
      .ok (keywords.any fun keyword => substrB keyword (pyLower text))

/-- `_check_condition`: the `except` handler (lines 352-354) turns any
raised evaluation error into `False` (fail-safe no-match). -/
def _check_condition (env : PyEnv) (c : TriggerCondition) (text : String) : Bool :=
  match checkConditionExc env c text with
  | .ok b => b
  | .error _ => false

/-! ### Response Templater: `_process_response_variables` (lines 356-386) -/

/-- The substitution pass the `variables` dict of lines 364-374 describes:
replace each supported placeholder by its value, one literal pass. -/
def renderVariables (chat_id user_id : Int) (trigger_text timeStr dateStr : String)
    (randVal : Nat) (t : String) : String :=
  (((((t.replace ("\x7buser_id\x7d") (toString user_id)).replace
      ("\x7bchat_id\x7d") (toString chat_id)).replace
      ("\x7btrigger_text\x7d") trigger_text).replace
      ("\x7btime\x7d") timeStr).replace
      ("\x7bdate\x7d") dateStr).replace
      ("\x7brandom\x7d") (toString randVal)

/-- `_process_response_variables`: evaluating the `variables` dict literal
reaches `random.randint(1, 100)` (line 370); `random` is not bound at module
scope (see `moduleHasRandom`), so a `NameError` is raised before any
replacement happens and the `except` handler (lines 384-386) returns the
original response object unchanged. -/
def _process_response_variables (response : TriggerResponse)
    (chat_id user_id : Int) (trigger_text : String)
    (timeStr dateStr : String) (randVal : Nat) : TriggerResponse :=
  if moduleHasRandom then
    { response with
        text := renderVariables chat_id user_id trigger_text timeStr dateStr randVal
          response.text }
  else
    response

/-! ### Rate-limiter state and the spec-modelled persistence helpers -/

/-- §3 CooldownEntry: `(triggerId, chatId, userId) → expiresAt`. -/
structure CooldownEntry where
  trigger_id : String
  chat_id : Int
  user_id : Int
  expires_at : Nat
deriving DecidableEq, Repr

/-- One fire recorded in the usage log (§3 DailyUsageCounter counts these
per `(triggerId, chatId, date)`). -/
structure UsageEntry where
  trigger_id : String
  chat_id : Int
  user_id : Int
  day : Nat
deriving DecidableEq, Repr

/-- The engine-owned mutable state: cooldown store and usage log. -/
structure TriggersState where
  cooldowns : List CooldownEntry
  usage_log : List UsageEntry
deriving DecidableEq, Repr

/-- Modelled from the spec: `_is_on_cooldown` is called at line 259 but not
defined in the repository.  §3: a `CooldownEntry` maps
`(triggerId, chatId, userId)` to `expiresAt` and is "checked before
evaluation; expired entries are logically absent". -/
def _is_on_cooldown (st : TriggersState) (now : Nat) (trigger_id : String)
    (chat_id user_id : Int) : Bool :=
  st.cooldowns.any fun e =>
    e.trigger_id == trigger_id && e.chat_id == chat_id && e.user_id == user_id
      && now < e.expires_at

/-- Modelled from the spec: `_get_today_usage` is called at line 264 but not
defined in the repository.  §3 DailyUsageCounter: `(triggerId, chatId, date)
→ count`, the number of fires recorded today. -/
def _get_today_usage (st : TriggersState) (today : Nat) (trigger_id : String)
    (chat_id : Int) : Nat :=
  (st.usage_log.filter fun e =>
    e.trigger_id == trigger_id && e.chat_id == chat_id && e.day == today).length

/-- Modelled from the spec: `_set_cooldown` is called at line 281 but not
defined in the repository.  §4.2: "setting a new cooldown expiry
(`now + cooldownSeconds`)" for `(trigger.id, chatId, userId)`. -/
def _set_cooldown (st : TriggersState) (now : Nat) (trigger_id : String)
    (chat_id user_id : Int) (cooldown_seconds : Nat) : TriggersState :=
  { st with
      cooldowns :=
        ⟨trigger_id, chat_id, user_id, now + cooldown_seconds⟩ ::
          st.cooldowns.filter fun e =>
            !(e.trigger_id == trigger_id && e.chat_id == chat_id && e.user_id == user_id) }

/-- Modelled from the spec: `_update_trigger_stats` is called at line 284 but
not defined in the repository.  §4.2: `record` increments today's usage
counter for the trigger. -/
def _update_trigger_stats (st : TriggersState) (today : Nat) (trigger_id : String)
    (chat_id user_id : Int) : TriggersState :=
  { st with usage_log := st.usage_log ++ [⟨trigger_id, chat_id, user_id, today⟩] }

/-! ### Dispatch Engine: `process_message` (lines 236-300) -/

/-- Result of dispatching: emitted responses, post state, and the rest of
the uniform random stream feeding `random.random()`. -/
structure StepResult where
  responses : List TriggerResponse
  state : TriggersState
  randoms : List ℚ
deriving DecidableEq, Repr

/-- The match-and-fire phase of one trigger (lines 275-294): scan the
conditions in order, stop at the first match (`break`), then set the
cooldown (only if `cooldown_seconds > 0`), record the usage, and render and
append every response of the trigger. -/
def matchPhase (env : PyEnv) (chat_id user_id : Int) (text : String)
    (st : TriggersState) (rnd : List ℚ) (t : TriggerConfig) : StepResult :=
  match t.conditions.find? (fun c => _check_condition env c text) with
  | none => ⟨[], st, rnd⟩
  | some _ =>
    let st1 :=
      if t.cooldown_seconds > 0 then
        _set_cooldown st env.nowTs t.id chat_id user_id t.cooldown_seconds
      else st
    let st2 := _update_trigger_stats st1 env.today t.id chat_id user_id
    ⟨t.responses.map fun r =>
        _process_response_variables r chat_id user_id text env.timeStr env.dateStr
          env.randVal,
      st2, rnd⟩

/-- One iteration of the trigger loop (lines 246-294): the admission gates in
source order (`continue` on rejection, embedded as an early `⟨[], st, rnd⟩`),
then the probability draw (`random.random() > probability` rejects,
consuming one value of the stream), then the match phase.  The daily-cap
gate nests two `if`s in the source; they are embedded as one conjunction
because the inner read has no effect. -/
def processTrigger (env : PyEnv) (chat_id user_id : Int) (text : String)
    (is_mention is_admin : Bool) (st : TriggersState) (rnd : List ℚ)
    (t : TriggerConfig) : StepResult :=
  if !t.is_active then ⟨[], st, rnd⟩
  else if t.admin_only && !is_admin then ⟨[], st, rnd⟩
  else if t.require_mention && !is_mention then ⟨[], st, rnd⟩
  else if _is_on_cooldown st env.nowTs t.id chat_id user_id then ⟨[], st, rnd⟩
  else if 0 < t.max_uses_per_day ∧
      t.max_uses_per_day ≤ _get_today_usage st env.today t.id chat_id then
    ⟨[], st, rnd⟩
  else if t.probability < 1 then
    if t.probability < rnd.headD 0 then ⟨[], st, rnd.tail⟩
    else matchPhase env chat_id user_id text st rnd.tail t
  else matchPhase env chat_id user_id text st rnd t

/-- The trigger loop: responses of every fired trigger are accumulated in
registry order, threading the rate-limiter state and the random stream. -/
def processTriggers (env : PyEnv) (chat_id user_id : Int) (text : String)
    (is_mention is_admin : Bool) :
    List TriggerConfig → TriggersState → List ℚ → StepResult
  | [], st, rnd => ⟨[], st, rnd⟩
  | t :: rest, st, rnd =>
    let r1 := processTrigger env chat_id user_id text is_mention is_admin st rnd t
    let r2 := processTriggers env chat_id user_id text is_mention is_admin rest
      r1.state r1.randoms
    ⟨r1.responses ++ r2.responses, r2.state, r2.randoms⟩

/-- `process_message` (lines 236-300).  The registry read
`self._get_chat_triggers(chat_id)` is not defined in the repository; it is
modelled from the spec (§4.4) as the `triggers` parameter, the chat's
ordered trigger snapshot.  Inside the loop every fallible call
(`_check_condition`, `_process_response_variables`) catches its own errors,
so the function-level `except` handler of lines 298-300 (which would return
`[]`) is unreachable in this model and the loop result is returned. -/
def process_message (env : PyEnv) (chat_id user_id : Int) (text : String)
    (is_mention is_admin : Bool) (triggers : List TriggerConfig)
    (st : TriggersState) (rnd : List ℚ) : StepResult :=
  processTriggers env chat_id user_id text is_mention is_admin triggers st rnd

/-! ### CRUD: `create_trigger` (lines 143-234) -/

/-- A row of the `ultimate_triggers` table, as written by the INSERT of
lines 200-214 (the JSON-encoded condition and response lists are kept
structured). -/
structure TriggerRow where
  id : String
  name : String
  chat_id : Int
  creator_id : Int
  conditions : List TriggerCondition
  responses : List TriggerResponse
  cooldown_seconds : Nat
  max_uses_per_day : Nat
  probability : ℚ
  require_mention : Bool
  admin_only : Bool
deriving DecidableEq, Repr

/-- The `**options` keyword arguments read by `create_trigger` via
`options.get`, with the defaults the source supplies. -/
structure CreateOptions where
  case_sensitive : Bool := false
  whole_words : Bool := false
  reactions : List String := []
  delete_trigger : Bool := false
  forward_to : Option Int := none
  cooldown : Nat := 0
  max_uses : Nat := 0
  probability : ℚ := 1
  require_mention : Bool := false
  admin_only : Bool := false
deriving DecidableEq, Repr

/-- Line 167: `trigger_id = f"trig_{chat_id}_{creator_id}_{abs(hash(name)) % 1000000}"`. -/
def derivedId (env : PyEnv) (chat_id creator_id : Int) (name : String) : String :=
  let h := env.pyHash name % 1000000
  "trig_" ++ toString chat_id ++ "_" ++ toString creator_id ++ "_" ++ toString h

/-- The row the INSERT of lines 200-214 writes. -/
def insertedRow (env : PyEnv) (name : String) (chat_id creator_id : Int)
    (pattern response : String) (trigger_type : TriggerType)
    (opts : CreateOptions) : TriggerRow :=
  { id := derivedId env chat_id creator_id name
    name := name
    chat_id := chat_id
    creator_id := creator_id
    conditions :=
      [{ type := trigger_type, pattern := pattern,
         case_sensitive := opts.case_sensitive, whole_words := opts.whole_words }]
    responses :=
      [{ text := response, reactions := opts.reactions,
         delete_trigger := opts.delete_trigger, forward_to := opts.forward_to }]
    cooldown_seconds := opts.cooldown
    max_uses_per_day := opts.max_uses
    probability := opts.probability
    require_mention := opts.require_mention
    admin_only := opts.admin_only }

/-- The success message assembled at lines 219-228 (the dynamic parts are
concatenated as in the source; this string is never returned, see
`create_trigger`). -/
def successMsg (name : String) (trigger_type : TriggerType)
    (pattern response : String) (opts : CreateOptions) : String :=
  "⚡ Триггер **" ++ name ++ "** создан!\n\n"
    ++ "🎯 Тип: " ++ trigger_type.value ++ "\n"
    ++ "🔍 Паттерн: `" ++ pattern ++ "`\n"
    ++ "💬 Ответ: " ++ (response.take 50)
    ++ (if response.length > 50 then "..." else "") ++ "\n"
    ++ (if opts.cooldown > 0 then "⏰ Кулдаун: " ++ toString opts.cooldown ++ "с\n" else "")
    ++ (if opts.probability < 1 then
          "🎲 Вероятность: " ++ toString ⌊opts.probability * 100⌋ ++ "%\n"
        else "")

/-- Result of `create_trigger`: the `(bool, str)` return value and the
post-state of the `ultimate_triggers` table. -/
structure CreateResult where
  ok : Bool
  message : String
  table : List TriggerRow
deriving DecidableEq, Repr

/-- `create_trigger` (lines 143-234).  The four validations of lines
150-164 run in order (the REGEX branch nests `re.compile` in a `try`; it is
embedded as one conjunction).  The INSERT re-raises on a duplicate id
(PRIMARY KEY, database.py line 311), which the enclosing handler turns into
a failure with the table unchanged.  After a successful INSERT the call
`self._update_chat_cache(chat_id)` (line 217) raises `AttributeError`
because the class defines no such method (see `definedMethods`), so the
handler returns a failure result even though the row was written. -/
def create_trigger (env : PyEnv) (table : List TriggerRow) (name : String)
    (chat_id creator_id : Int) (pattern response : String)
    (trigger_type : TriggerType) (opts : CreateOptions) : CreateResult :=
  if name.length > 50 then
    ⟨false, "❌ Имя триггера слишком длинное (макс. 50 символов)", table⟩
  else if pattern.length > 500 then
    ⟨false, "❌ Паттерн слишком длинный (макс. 500 символов)", table⟩
  else if response.length > 1000 then
    ⟨false, "❌ Ответ слишком длинный (макс. 1000 символов)", table⟩
  else if trigger_type = TriggerType.REGEX ∧ !env.regexCompiles pattern then
    ⟨false, "❌ Неверное регулярное выражение", table⟩
  else
    let trigger_id := derivedId env chat_id creator_id name
    if table.any fun r => r.id == trigger_id then
      ⟨false, "❌ Ошибка создания: UNIQUE constraint failed: ultimate_triggers.id", table⟩
    else
      let table2 := table ++ [insertedRow env name chat_id creator_id pattern response
        trigger_type opts]
      if definedMethods.contains ("_update_chat_cache") then
        ⟨true, successMsg name trigger_type pattern response opts, table2⟩
      else
        ⟨false, "❌ Ошибка создания: AttributeError", table2⟩

/-! ### Concrete fixtures used by the end-to-end theorem and the witnesses -/

/-- A concrete environment: no AI service (as wired in
`ultimate_bot_integration.py` line 33, which passes no `ai_service`), a
regex engine on which every search reports no match and only the pattern
`"("` fails to compile, and fixed clock/random inputs. -/
def defaultEnv : PyEnv :=
  { reSearch := fun _ _ _ => .ok false
    ai := none
    regexCompiles := fun p => !(p == "(")
    pyHash := fun _ => 0
    nowTs := 1000
    today := 20
    timeStr := "12:34"
    dateStr := "01.01.2025"
    randVal := 4 }

/-- `defaultEnv` with a regex engine whose every search raises. -/
def errEnv : PyEnv := { defaultEnv with reSearch := fun _ _ _ => .error ("boom") }

/-- The scenario-A trigger of §8: `Contains("hi") → "Hello!"`, no cooldown,
no cap, probability 1. -/
def greetTrigger : TriggerConfig :=
  { id := "trig_1_1_0"
    name := "greet"
    chat_id := 1
    creator_id := 1
    conditions := [{ type := .CONTAINS, pattern := "hi" }]
    responses := [{ text := "Hello!" }]
    cooldown_seconds := 0
    max_uses_per_day := 0
    probability := 1 }

/-- `greetTrigger` deactivated (a gate-rejected trigger for the witnesses). -/
def inactiveGreet : TriggerConfig := { greetTrigger with is_active := false }

/-- `greetTrigger` with probability 0: every draw of the probability gate
rejects it. -/
def probZeroGreet : TriggerConfig := { greetTrigger with probability := 0 }

/-- A trigger whose single REGEX condition makes the evaluator raise under
`errEnv`. -/
def badRegexTrigger : TriggerConfig :=
  { id := "trig_1_1_9"
    name := "bad"
    chat_id := 1
    creator_id := 1
    conditions := [{ type := .REGEX, pattern := "(" }]
    responses := [{ text := "never" }]
    probability := 1 }

/-- A second matching trigger, to sit after `badRegexTrigger` in the batch. -/
def byeTrigger : TriggerConfig :=
  { id := "trig_1_1_7"
    name := "bye"
    chat_id := 1
    creator_id := 1
    conditions := [{ type := .CONTAINS, pattern := "hi" }]
    responses := [{ text := "Bye!" }]
    probability := 1 }

/-- The empty rate-limiter state. -/
def emptyState : TriggersState := ⟨[], []⟩

/-! ### Spec-side reference semantics (§4.1), for the refinement claims -/

/-- §4.1: "case-folded (unless `caseSensitive`)". -/
def specFold (case_sensitive : Bool) (s : String) : String :=
  if case_sensitive then s else pyLower s

/-- §4.1 `Contains` with `wholeWordOnly`: the pattern occurs at some
position with a word boundary on each side. -/
def wordBoundaryOccurs (pat text : List Char) : Prop :=
  ∃ i, i ≤ text.length ∧ pat <+: text.drop i ∧
    boundaryAt text i = true ∧ boundaryAt text (i + pat.length) = true

/-- §4.1 reference semantics of the five deterministic condition kinds:
`Exact` is case-folded whole-message equality; `Contains` is a substring
test (word-boundary occurrence when `wholeWordOnly`); `StartsWith` and
`EndsWith` are prefix/suffix tests under the same folding; `Regex` is a
search over the *raw* message text with case-insensitivity as a flag, a
raised search being no-match.  `Smart` is specified separately (§4.1 Smart,
claim C9). -/
def specEvaluate (env : PyEnv) (c : TriggerCondition) (text : String) : Prop :=
  match c.type with
  | .EXACT => specFold c.case_sensitive text = specFold c.case_sensitive c.pattern
  | .CONTAINS =>
    if c.whole_words then
      wordBoundaryOccurs (specFold c.case_sensitive c.pattern).data
        (specFold c.case_sensitive text).data
    else
      (specFold c.case_sensitive c.pattern).data <:+: (specFold c.case_sensitive text).data
  | .STARTS_WITH =>
    (specFold c.case_sensitive c.pattern).data <+: (specFold c.case_sensitive text).data
  | .ENDS_WITH =>
    (specFold c.case_sensitive c.pattern).data <:+ (specFold c.case_sensitive text).data
  | .REGEX => env.reSearch c.pattern text (!c.case_sensitive) = .ok true
  | .SMART => False

/-! ### Bridging lemmas: boolean string primitives vs. Prop-level semantics -/

theorem isPrefixOf_eq_true_iff {α} [DecidableEq α] (l₁ l₂ : List α) :
    l₁.isPrefixOf l₂ = true ↔ l₁ <+: l₂ := by
  induction l₁ generalizing l₂ with
  | nil => simp [List.isPrefixOf]
  | cons a as ih =>
    cases l₂ with
    | nil => simp [List.isPrefixOf]
    | cons b bs =>
      simp only [List.isPrefixOf, Bool.and_eq_true, beq_iff_eq, ih]
      constructor
      · rintro ⟨rfl, t, rfl⟩
        exact ⟨t, rfl⟩
      · rintro ⟨t, ht⟩
        injection ht with h1 h2
        exact ⟨h1, t, h2⟩

theorem reverse_prefix_reverse_iff {α} (l₁ l₂ : List α) :
    l₁.reverse <+: l₂.reverse ↔ l₁ <:+ l₂ := by
  constructor
  · rintro ⟨t, ht⟩
    refine ⟨t.reverse, ?_⟩
    have h2 := congrArg List.reverse ht
    simpa using h2
  · rintro ⟨t, rfl⟩
    exact ⟨t.reverse, by simp⟩

theorem infixB_eq_true_iff (n : List Char) : ∀ h, infixB n h = true ↔ n <:+: h := by
  intro h
  induction h with
  | nil =>
    simp only [infixB, List.isEmpty_iff]
    constructor
    · rintro rfl
      exact ⟨[], [], rfl⟩
    · rintro ⟨s, t, hst⟩
      rcases List.append_eq_nil.mp hst with ⟨hs, ht⟩
      exact (List.append_eq_nil.mp hs).2
  | cons c rest ih =>
    simp only [infixB, Bool.or_eq_true, ih, isPrefixOf_eq_true_iff]
    constructor
    · rintro (⟨t, ht⟩ | ⟨s, t, hst⟩)
      · exact ⟨[], t, by simpa using ht⟩
      · exact ⟨c :: s, t, by simp [hst]⟩
    · rintro ⟨s, t, hst⟩
      cases s with
      | nil => exact Or.inl ⟨t, by simpa using hst⟩
      | cons a s2 =>
        injection hst with h1 h2
        exact Or.inr ⟨s2, t, h2⟩

theorem substrB_eq_true_iff (n h : String) : substrB n h = true ↔ n.data <:+: h.data :=
  infixB_eq_true_iff n.data h.data

theorem startsWithB_eq_true_iff (pat text : String) :
    startsWithB pat text = true ↔ pat.data <+: text.data :=
  isPrefixOf_eq_true_iff pat.data text.data

theorem endsWithB_eq_true_iff (pat text : String) :
    endsWithB pat text = true ↔ pat.data <:+ text.data := by
  unfold endsWithB List.isSuffixOf
  rw [isPrefixOf_eq_true_iff, reverse_prefix_reverse_iff]

theorem wholeWordSearch_eq_true_iff (pat text : List Char) :
    wholeWordSearch pat text = true ↔ wordBoundaryOccurs pat text := by
  simp [wholeWordSearch, wordBoundaryOccurs, List.any_eq_true, List.mem_range,
    Nat.lt_succ_iff, Bool.and_eq_true, isPrefixOf_eq_true_iff, and_assoc]

/-- C8: for every condition of kind Exact, Contains, StartsWith, EndsWith or
Regex and every message text, `_check_condition` implements the §4.1
reference semantics: case-folded (unless `caseSensitive`) whole-message
equality for Exact; substring test for Contains, with word-boundary
semantics when `wholeWordOnly`; prefix/suffix tests under the same folding
for StartsWith/EndsWith; and for Regex a search applied to the raw message
text with case-insensitivity as a search flag (not text pre-folding), a
raised search counting as no-match. -/
theorem C8_condition_evaluator_reference_semantics (env : PyEnv)
    (c : TriggerCondition) (text : String) (h : c.type ≠ TriggerType.SMART) :
    _check_condition env c text = true ↔ specEvaluate env c text := by
  rcases c with ⟨ty, pat, cs, ww⟩
  cases ty with
  | EXACT =>
    simp [_check_condition, checkConditionExc, specEvaluate, specFold]
  | CONTAINS =>
    cases ww with
    | false =>
      simp [_check_condition, checkConditionExc, specEvaluate, specFold,
        substrB_eq_true_iff]
    | true =>
      simp [_check_condition, checkConditionExc, specEvaluate, specFold,
        wholeWordSearch_eq_true_iff]
  | STARTS_WITH =>
    simp [_check_condition, checkConditionExc, specEvaluate, specFold,
      startsWithB_eq_true_iff]
  | ENDS_WITH =>
    simp [_check_condition, checkConditionExc, specEvaluate, specFold,
      endsWithB_eq_true_iff]
  | REGEX =>
    simp only [_check_condition, checkConditionExc, specEvaluate]
    cases henv : env.reSearch pat text (!cs) with
    | ok b => cases b <;> simp
    | error e => simp
  | SMART => exact absurd rfl h

/-- C8 witness: the theorem applied to the `Contains("hi")` condition on the
message `"hi there"`. -/
theorem C8_condition_evaluator_reference_semantics_witness :
    (({ type := TriggerType.CONTAINS, pattern := "hi" } : TriggerCondition).type
        ≠ TriggerType.SMART)
    ∧ (_check_condition defaultEnv { type := TriggerType.CONTAINS, pattern := "hi" }
          ("hi there") = true
        ↔ specEvaluate defaultEnv { type := TriggerType.CONTAINS, pattern := "hi" }
          ("hi there")) :=
  ⟨by decide,
    C8_condition_evaluator_reference_semantics defaultEnv
      { type := TriggerType.CONTAINS, pattern := "hi" } ("hi there") (by decide)⟩

/-- C9: when no AI classifier is available (`self.ai is None`), a Smart
condition matches iff some whitespace-separated keyword of the pattern
occurs as a case-insensitive substring of the message text (the degraded
fallback of §4.1, not an error). -/
theorem C9_smart_fallback_keyword_match (env : PyEnv) (c : TriggerCondition)
    (text : String) (hai : env.ai = none) (hty : c.type = TriggerType.SMART) :
    _check_condition env c text = true ↔
      ∃ kw ∈ pySplit (pyLower c.pattern), kw.data <:+: (pyLower text).data := by
  rcases c with ⟨ty, pat, cs, ww⟩
  subst hty
  simp [_check_condition, checkConditionExc, hai, List.any_eq_true,
    substrB_eq_true_iff]

/-- C9 witness: under `defaultEnv` (no AI service) the Smart pattern
`"hello world"` against `"say HELLO"` matches via the keyword `"hello"`. -/
theorem C9_smart_fallback_keyword_match_witness :
    defaultEnv.ai = none
    ∧ (({ type := TriggerType.SMART, pattern := "hello world" } : TriggerCondition).type
        = TriggerType.SMART)
    ∧ (_check_condition defaultEnv
          { type := TriggerType.SMART, pattern := "hello world" } ("say HELLO") = true
        ↔ ∃ kw ∈ pySplit (pyLower "hello world"),
            kw.data <:+: (pyLower ("say HELLO")).data) :=
  ⟨rfl, rfl,
    C9_smart_fallback_keyword_match defaultEnv
      { type := TriggerType.SMART, pattern := "hello world" } ("say HELLO") rfl rfl⟩

/-- C1: end-to-end scenario A — with the single active trigger
`greet = {Contains("hi") → "Hello!", cooldown 0, cap 0, probability 1}`
registered for chat 1, dispatching `"hi there"` from chat 1 returns exactly
one rendered response, and its text is `"Hello!"`. -/
theorem C1_end_to_end_scenario_A :
    (process_message defaultEnv 1 7 ("hi there") false false [greetTrigger]
        emptyState []).responses.map TriggerResponse.text = ["Hello!"] := by
  decide

/-- C3: the claim fails on the code — the `variables` dict of
`_process_response_variables` evaluates `random.randint(1, 100)`, but
`random` is not bound at module scope, so a `NameError` is raised before any
replacement and the handler returns the response unchanged.  Rendering is
the identity on every input, and on the round-trip template
`"Hello {user_id} at {time}"` with user id 42 the output is the template
verbatim: it does not contain `"42"` and the placeholder syntax remains. -/
theorem C3_renderer_never_substitutes :
    (∀ (r : TriggerResponse) (chat_id user_id : Int) (txt ts ds : String) (rv : Nat),
        _process_response_variables r chat_id user_id txt ts ds rv = r)
    ∧ (_process_response_variables { text := "Hello \x7buser_id\x7d at \x7btime\x7d" }
          1 42 ("hi") ("12:34") ("01.01.2025") 7).text
        = "Hello \x7buser_id\x7d at \x7btime\x7d"
    ∧ substrB ("42")
        (_process_response_variables { text := "Hello \x7buser_id\x7d at \x7btime\x7d" }
          1 42 ("hi") ("12:34") ("01.01.2025") 7).text = false := by
  refine ⟨fun r chat_id user_id txt ts ds rv => ?_, by decide, by decide⟩
  simp [_process_response_variables, moduleHasRandom, moduleScopeNames]

/-- C5 counterexample: `create_trigger` does not validate name uniqueness
within the chat — creating `"dup"` in chat 1 by creator 1 and then again by
creator 2 leaves two rows named `"dup"` for chat 1 in the table, so the
second same-name-same-chat creation inserted a row instead of being
rejected by a uniqueness check. -/
theorem C5_counterexample_duplicate_name_inserted :
    ((create_trigger defaultEnv
        (create_trigger defaultEnv [] ("dup") 1 1 ("p") ("r")
          TriggerType.CONTAINS {}).table
        ("dup") 1 2 ("p") ("r") TriggerType.CONTAINS {}).table.filter
      fun r => r.name == "dup" && r.chat_id == 1).length = 2 := by
  decide

/-- C5 amended: `create_trigger` performs no uniqueness or quota validation;
a duplicate is refused only when the derived primary key
`trig_{chat}_{creator}_{hash(name)%1000000}` collides on INSERT (same name,
chat *and creator*): then the call fails and the table is unchanged. -/
theorem C5_amended_duplicate_rejected_only_by_primary_key (env : PyEnv)
    (table : List TriggerRow) (name : String) (chat_id creator_id : Int)
    (pattern response : String) (trigger_type : TriggerType) (opts : CreateOptions)
    (h50 : ¬ name.length > 50) (h500 : ¬ pattern.length > 500)
    (h1000 : ¬ response.length > 1000)
    (hre : ¬ (trigger_type = TriggerType.REGEX ∧ !env.regexCompiles pattern))
    (hdup : (table.any fun r => r.id == derivedId env chat_id creator_id name) = true) :
    (create_trigger env table name chat_id creator_id pattern response
        trigger_type opts).ok = false
    ∧ (create_trigger env table name chat_id creator_id pattern response
        trigger_type opts).table = table := by
  unfold create_trigger
  rw [if_neg h50, if_neg h500, if_neg h1000, if_neg hre]
  rw [if_pos hdup]
  exact ⟨rfl, rfl⟩

/-- C5 amended witness: re-creating `"dup"` for the same chat and creator
hits the primary-key collision — failure is returned and the table is
unchanged. -/
theorem C5_amended_duplicate_rejected_only_by_primary_key_witness :
    (¬ ("dup" : String).length > 50) ∧
    ((create_trigger defaultEnv [insertedRow defaultEnv ("dup") 1 1 ("p") ("r")
        TriggerType.CONTAINS {}] ("dup") 1 1 ("p") ("r")
        TriggerType.CONTAINS {}).ok = false
      ∧ (create_trigger defaultEnv [insertedRow defaultEnv ("dup") 1 1 ("p") ("r")
          TriggerType.CONTAINS {}] ("dup") 1 1 ("p") ("r")
          TriggerType.CONTAINS {}).table
        = [insertedRow defaultEnv ("dup") 1 1 ("p") ("r") TriggerType.CONTAINS {}]) :=
  ⟨by decide,
    C5_amended_duplicate_rejected_only_by_primary_key defaultEnv
      [insertedRow defaultEnv ("dup") 1 1 ("p") ("r") TriggerType.CONTAINS {}]
      ("dup") 1 1 ("p") ("r") TriggerType.CONTAINS {}
      (by decide) (by decide) (by decide) (by decide) (by decide)⟩

/-- C6: every creation request with a too-long name (>50), too-long pattern
(>500), too-long response (>1000) or a REGEX pattern that does not compile
is rejected synchronously: `create_trigger` returns a failure and the table
is unchanged, so the invalid trigger can never reach dispatch. -/
theorem C6_creation_validation_rejects_without_insert (env : PyEnv)
    (table : List TriggerRow) (name : String) (chat_id creator_id : Int)
    (pattern response : String) (trigger_type : TriggerType) (opts : CreateOptions)
    (h : name.length > 50 ∨ pattern.length > 500 ∨ response.length > 1000
      ∨ (trigger_type = TriggerType.REGEX ∧ env.regexCompiles pattern = false)) :
    (create_trigger env table name chat_id creator_id pattern response
        trigger_type opts).ok = false
    ∧ (create_trigger env table name chat_id creator_id pattern response
        trigger_type opts).table = table := by
  unfold create_trigger
  by_cases h50 : name.length > 50
  · simp [h50]
  by_cases h500 : pattern.length > 500
  · simp [h50, h500]
  by_cases h1000 : response.length > 1000
  · simp [h50, h500, h1000]
  have hre : trigger_type = TriggerType.REGEX ∧ env.regexCompiles pattern = false := by
    tauto
  simp [h50, h500, h1000, hre.1, hre.2]

/-- C6 witness: the §8 regex-validation test — pattern `"("` with kind
REGEX is rejected at creation and nothing is inserted. -/
theorem C6_creation_validation_rejects_without_insert_witness :
    defaultEnv.regexCompiles ("(") = false ∧
    ((create_trigger defaultEnv [] ("evil") 1 1 ("(") ("r")
        TriggerType.REGEX {}).ok = false
      ∧ (create_trigger defaultEnv [] ("evil") 1 1 ("(") ("r")
          TriggerType.REGEX {}).table = []) :=
  ⟨by decide,
    C6_creation_validation_rejects_without_insert defaultEnv [] ("evil") 1 1
      ("(") ("r") TriggerType.REGEX {}
      (Or.inr (Or.inr (Or.inr ⟨rfl, by decide⟩)))⟩

/-- Helper: no input whatsoever makes `create_trigger` report success —
every validation failure, the primary-key collision, and the
`AttributeError` raised by the missing `_update_chat_cache` all return a
failure result. -/
theorem create_trigger_never_ok (env : PyEnv) (table : List TriggerRow)
    (name : String) (chat_id creator_id : Int) (pattern response : String)
    (trigger_type : TriggerType) (opts : CreateOptions) :
    (create_trigger env table name chat_id creator_id pattern response
      trigger_type opts).ok = false := by
  have hm : ¬ (definedMethods.contains ("_update_chat_cache") = true) := by decide
  unfold create_trigger
  by_cases h1 : name.length > 50
  · rw [if_pos h1]
  rw [if_neg h1]
  by_cases h2 : pattern.length > 500
  · rw [if_pos h2]
  rw [if_neg h2]
  by_cases h3 : response.length > 1000
  · rw [if_pos h3]
  rw [if_neg h3]
  by_cases h4 : trigger_type = TriggerType.REGEX ∧ !env.regexCompiles pattern
  · rw [if_pos h4]
  rw [if_neg h4]
  by_cases h5 : (table.any fun r => r.id == derivedId env chat_id creator_id name) = true
  · rw [if_pos h5]
  rw [if_neg h5]
  rw [if_neg hm]

/-- C10: `create_trigger` is not atomic on its failure path and never
reports success — for every input passing the four validations whose
derived id is fresh, the INSERT is executed and the subsequent
`self._update_chat_cache` call raises `AttributeError` (no such method is
defined on the class), so the call returns a failure result even though the
row was persisted; moreover no input whatsoever makes it return success. -/
theorem C10_create_trigger_persists_but_reports_failure (env : PyEnv)
    (table : List TriggerRow) (name : String) (chat_id creator_id : Int)
    (pattern response : String) (trigger_type : TriggerType) (opts : CreateOptions)
    (h50 : ¬ name.length > 50) (h500 : ¬ pattern.length > 500)
    (h1000 : ¬ response.length > 1000)
    (hre : ¬ (trigger_type = TriggerType.REGEX ∧ !env.regexCompiles pattern))
    (hfresh : (table.any fun r => r.id == derivedId env chat_id creator_id name) = false) :
    ((create_trigger env table name chat_id creator_id pattern response
        trigger_type opts).ok = false
      ∧ (create_trigger env table name chat_id creator_id pattern response
          trigger_type opts).table
        = table ++ [insertedRow env name chat_id creator_id pattern response
            trigger_type opts])
    ∧ ∀ (env2 : PyEnv) (table2 : List TriggerRow) (name2 : String)
        (chat2 creator2 : Int) (pat2 resp2 : String) (ty2 : TriggerType)
        (opts2 : CreateOptions),
        (create_trigger env2 table2 name2 chat2 creator2 pat2 resp2 ty2 opts2).ok
          = false := by
  constructor
  · have hm : ¬ (definedMethods.contains ("_update_chat_cache") = true) := by decide
    have hfresh2 : ¬ ((table.any fun r => r.id == derivedId env chat_id creator_id name)
        = true) := by
      rw [hfresh]
      exact Bool.false_ne_true
    unfold create_trigger
    rw [if_neg h50, if_neg h500, if_neg h1000, if_neg hre]
    rw [if_neg hfresh2]
    rw [if_neg hm]
    exact ⟨rfl, rfl⟩
  · intro env2 table2 name2 chat2 creator2 pat2 resp2 ty2 opts2
    exact create_trigger_never_ok env2 table2 name2 chat2 creator2 pat2 resp2
      ty2 opts2

/-- C10 witness: a fully valid creation of `"greet"` in an empty table
returns failure yet the row is in the table. -/
theorem C10_create_trigger_persists_but_reports_failure_witness :
    (¬ ("greet" : String).length > 50) ∧
    (((create_trigger defaultEnv [] ("greet") 1 1 ("hi") ("Hello!")
        TriggerType.CONTAINS {}).ok = false
      ∧ (create_trigger defaultEnv [] ("greet") 1 1 ("hi") ("Hello!")
          TriggerType.CONTAINS {}).table
        = [] ++ [insertedRow defaultEnv ("greet") 1 1 ("hi") ("Hello!")
            TriggerType.CONTAINS {}])
      ∧ ∀ (env2 : PyEnv) (table2 : List TriggerRow) (name2 : String)
          (chat2 creator2 : Int) (pat2 resp2 : String) (ty2 : TriggerType)
          (opts2 : CreateOptions),
          (create_trigger env2 table2 name2 chat2 creator2 pat2 resp2 ty2 opts2).ok
            = false) :=
  ⟨by decide,
    C10_create_trigger_persists_but_reports_failure defaultEnv [] ("greet") 1 1
      ("hi") ("Hello!") TriggerType.CONTAINS {}
      (by decide) (by decide) (by decide) (by decide) (by decide)⟩

/-- Helper: the trigger loop distributes over list append — processing
`l1 ++ l2` is processing `l1` and then `l2` from the intermediate state,
with the response lists concatenated. -/
theorem processTriggers_append (env : PyEnv) (chat_id user_id : Int) (text : String)
    (is_mention is_admin : Bool) (l1 l2 : List TriggerConfig) :
    ∀ (st : TriggersState) (rnd : List ℚ),
      processTriggers env chat_id user_id text is_mention is_admin (l1 ++ l2) st rnd
        = let r1 := processTriggers env chat_id user_id text is_mention is_admin l1 st rnd
          let r2 := processTriggers env chat_id user_id text is_mention is_admin l2
            r1.state r1.randoms
          ⟨r1.responses ++ r2.responses, r2.state, r2.randoms⟩ := by
  induction l1 with
  | nil => intro st rnd; simp [processTriggers]
  | cons t ts ih => intro st rnd; simp [processTriggers, ih]

/-- Helper: a trigger whose every condition evaluation raises contributes no
responses and leaves the rate-limiter state unchanged (the raise is caught
inside `_check_condition` and treated as no-match). -/
theorem processTrigger_error_no_effect (env : PyEnv) (chat_id user_id : Int)
    (text : String) (is_mention is_admin : Bool) (st : TriggersState) (rnd : List ℚ)
    (T : TriggerConfig)
    (herr : ∀ c ∈ T.conditions, ∃ e, checkConditionExc env c text = Except.error e) :
    (processTrigger env chat_id user_id text is_mention is_admin st rnd T).responses = []
    ∧ (processTrigger env chat_id user_id text is_mention is_admin st rnd T).state = st := by
  have hfind : T.conditions.find? (fun c => _check_condition env c text) = none := by
    rw [List.find?_eq_none]
    intro c hc
    rcases herr c hc with ⟨e, he⟩
    simp [_check_condition, he]
  unfold processTrigger
  split_ifs <;>
    first
      | exact ⟨rfl, rfl⟩
      | (unfold matchPhase; rw [hfind]; exact ⟨rfl, rfl⟩)

/-- C2: a single trigger whose condition evaluation raises never aborts the
batch — its error is caught (inside `_check_condition`, treated as
no-match), the trigger contributes no responses and no state change, the
responses already accumulated from the triggers before it are still in the
returned list, and the triggers after it are still processed. -/
theorem C2_trigger_error_does_not_abort_batch (env : PyEnv) (chat_id user_id : Int)
    (text : String) (is_mention is_admin : Bool) (pre post : List TriggerConfig)
    (T : TriggerConfig) (st : TriggersState) (rnd : List ℚ)
    (herr : ∀ c ∈ T.conditions, ∃ e, checkConditionExc env c text = Except.error e) :
    let rpre := processTriggers env chat_id user_id text is_mention is_admin pre st rnd
    let rT := processTrigger env chat_id user_id text is_mention is_admin
      rpre.state rpre.randoms T
    let rpost := processTriggers env chat_id user_id text is_mention is_admin post
      rT.state rT.randoms
    rT.responses = [] ∧ rT.state = rpre.state ∧
      process_message env chat_id user_id text is_mention is_admin (pre ++ T :: post)
          st rnd
        = ⟨rpre.responses ++ rpost.responses, rpost.state, rpost.randoms⟩ := by
  intro rpre rT rpost
  obtain ⟨hresp, hstate⟩ := processTrigger_error_no_effect env chat_id user_id text
    is_mention is_admin rpre.state rpre.randoms T herr
  refine ⟨hresp, hstate, ?_⟩
  unfold process_message
  rw [processTriggers_append]
  simp only [processTriggers]
  rw [hresp]
  rfl

/-- C4: every gate rejection skips the trigger with no state change — if the
trigger is inactive, admin-only without an admin, mention-requiring without
a mention, on an unexpired cooldown, or at its daily cap, the step emits
nothing and changes neither cooldowns nor usage counters nor the random
stream; if all those gates pass and the probability draw exceeds
`probability`, the step emits nothing and changes no state (only consuming
the draw), independently of the trigger's conditions (the draw is the last
gate before condition evaluation); and any state change implies some
condition actually matched. -/
theorem C4_gate_rejection_no_state_change (env : PyEnv) (chat_id user_id : Int)
    (text : String) (is_mention is_admin : Bool) (st : TriggersState) (rnd : List ℚ)
    (t : TriggerConfig) :
    ((t.is_active = false
        ∨ (t.admin_only = true ∧ is_admin = false)
        ∨ (t.require_mention = true ∧ is_mention = false)
        ∨ _is_on_cooldown st env.nowTs t.id chat_id user_id = true
        ∨ (0 < t.max_uses_per_day ∧
            t.max_uses_per_day ≤ _get_today_usage st env.today t.id chat_id)) →
      processTrigger env chat_id user_id text is_mention is_admin st rnd t
        = ⟨[], st, rnd⟩)
    ∧ (t.is_active = true → (t.admin_only = true → is_admin = true) →
       (t.require_mention = true → is_mention = true) →
       _is_on_cooldown st env.nowTs t.id chat_id user_id = false →
       ¬ (0 < t.max_uses_per_day ∧
            t.max_uses_per_day ≤ _get_today_usage st env.today t.id chat_id) →
       t.probability < 1 → t.probability < rnd.headD 0 →
       ∀ cs : List TriggerCondition,
         processTrigger env chat_id user_id text is_mention is_admin st rnd
           { t with conditions := cs } = ⟨[], st, rnd.tail⟩)
    ∧ ((processTrigger env chat_id user_id text is_mention is_admin st rnd t).state ≠ st →
        ∃ c ∈ t.conditions, _check_condition env c text = true) := by
  refine ⟨?_, ?_, ?_⟩
  · intro h
    unfold processTrigger
    split_ifs with h1 h2 h3 h4 h5 h6 h7 <;> try rfl
    all_goals
      exfalso
      rcases h with h | ⟨ha, hb⟩ | ⟨ha, hb⟩ | h | h <;> simp_all
  · intro hact hadm hmen hcd hcap hp hd cs
    unfold processTrigger
    split_ifs with h1 h2 h3 h4 <;> simp_all
  · intro hst
    unfold processTrigger at hst
    split_ifs at hst <;> try (exact absurd rfl hst)
    all_goals
      unfold matchPhase at hst
      cases hf : t.conditions.find? (fun c => _check_condition env c text) with
      | none => rw [hf] at hst; exact absurd rfl hst
      | some c =>
        have hpc := List.find?_some hf
        exact ⟨c, List.mem_of_find?_eq_some hf, by simpa using hpc⟩

/-- C4 witness: the inactive `greet` trigger is skipped with no responses,
no state change and no random draw; and the probability-0 `greet` trigger,
admitted by every earlier gate but rejected by the draw 1, is skipped with
no state change, only the draw consumed, whatever its conditions. -/
theorem C4_gate_rejection_no_state_change_witness :
    (inactiveGreet.is_active = false ∧
      processTrigger defaultEnv 1 7 ("hi there") false false emptyState [] inactiveGreet
        = ⟨[], emptyState, []⟩)
    ∧ (probZeroGreet.probability < (1 : ℚ) ∧
      processTrigger defaultEnv 1 7 ("hi there") false false emptyState [1]
          { probZeroGreet with conditions := [] }
        = ⟨[], emptyState, []⟩) :=
  ⟨⟨rfl,
    (C4_gate_rejection_no_state_change defaultEnv 1 7 ("hi there") false false
      emptyState [] inactiveGreet).1 (Or.inl rfl)⟩,
   ⟨by decide,
    (C4_gate_rejection_no_state_change defaultEnv 1 7 ("hi there") false false
      emptyState [1] probZeroGreet).2.1 rfl (by decide) (by decide) (by decide)
      (by decide) (by decide) (by decide) []⟩⟩

/-- C7: first-match-wins — for a trigger whose condition list is `[A, B]`
with `A` matching, the step result is identical to that of the same trigger
with condition list `[A]` (so whether `B` would also match is irrelevant:
scanning stops at `A`, the side effects happen once), and the emitted
responses are either none (a gate rejected) or exactly one copy of the
trigger's rendered response list. -/
theorem C7_first_match_wins (env : PyEnv) (chat_id user_id : Int) (text : String)
    (is_mention is_admin : Bool) (st : TriggersState) (rnd : List ℚ)
    (t : TriggerConfig) (A B : TriggerCondition)
    (hA : _check_condition env A text = true) :
    processTrigger env chat_id user_id text is_mention is_admin st rnd
        { t with conditions := [A, B] }
      = processTrigger env chat_id user_id text is_mention is_admin st rnd
        { t with conditions := [A] }
    ∧ ((processTrigger env chat_id user_id text is_mention is_admin st rnd
          { t with conditions := [A, B] }).responses = []
        ∨ (processTrigger env chat_id user_id text is_mention is_admin st rnd
            { t with conditions := [A, B] }).responses
          = t.responses.map fun r =>
              _process_response_variables r chat_id user_id text env.timeStr
                env.dateStr env.randVal) := by
  have hfind2 : ([A, B].find? fun c => _check_condition env c text) = some A := by
    simp [List.find?, hA]
  have hfind1 : ([A].find? fun c => _check_condition env c text) = some A := by
    simp [List.find?, hA]
  have hm : ∀ (st2 : TriggersState) (rnd2 : List ℚ),
      matchPhase env chat_id user_id text st2 rnd2 { t with conditions := [A, B] }
        = matchPhase env chat_id user_id text st2 rnd2 { t with conditions := [A] } := by
    intro st2 rnd2
    unfold matchPhase
    dsimp only
    rw [hfind2, hfind1]
  constructor
  · unfold processTrigger
    dsimp only
    split_ifs <;> first | rfl | exact hm _ _
  · unfold processTrigger
    dsimp only
    split_ifs <;>
      first
        | exact Or.inl rfl
        | (right
           unfold matchPhase
           dsimp only
           rw [hfind2])

/-- C7 witness: with `A = Contains("hi")` and `B = Contains("there")`, both
matching `"hi there"`, the result with `[A, B]` equals the result with
`[A]` alone. -/
theorem C7_first_match_wins_witness :
    _check_condition defaultEnv { type := TriggerType.CONTAINS, pattern := "hi" }
        ("hi there") = true
    ∧ processTrigger defaultEnv 1 7 ("hi there") false false emptyState []
        { greetTrigger with
            conditions := [{ type := TriggerType.CONTAINS, pattern := "hi" },
              { type := TriggerType.CONTAINS, pattern := "there" }] }
      = processTrigger defaultEnv 1 7 ("hi there") false false emptyState []
        { greetTrigger with
            conditions := [{ type := TriggerType.CONTAINS, pattern := "hi" }] } :=
  ⟨by decide,
    (C7_first_match_wins defaultEnv 1 7 ("hi there") false false emptyState []
      greetTrigger { type := TriggerType.CONTAINS, pattern := "hi" }
      { type := TriggerType.CONTAINS, pattern := "there" } (by decide)).1⟩

/-- C2 witness: under `errEnv` (every regex search raises), the batch
`[greet, bad-regex, bye]` on `"hi there"` still returns the `greet` and
`bye` responses, with the erroring middle trigger contributing nothing. -/
theorem C2_trigger_error_does_not_abort_batch_witness :
    (∀ c ∈ badRegexTrigger.conditions,
      ∃ e, checkConditionExc errEnv c ("hi there") = Except.error e)
    ∧ (let rpre := processTriggers errEnv 1 7 ("hi there") false false [greetTrigger]
        emptyState []
       let rT := processTrigger errEnv 1 7 ("hi there") false false
        rpre.state rpre.randoms badRegexTrigger
       let rpost := processTriggers errEnv 1 7 ("hi there") false false [byeTrigger]
        rT.state rT.randoms
       rT.responses = [] ∧ rT.state = rpre.state ∧
        process_message errEnv 1 7 ("hi there") false false
            ([greetTrigger] ++ badRegexTrigger :: [byeTrigger]) emptyState []
          = ⟨rpre.responses ++ rpost.responses, rpost.state, rpost.randoms⟩) := by
  have herr : ∀ c ∈ badRegexTrigger.conditions,
      ∃ e, checkConditionExc errEnv c ("hi there") = Except.error e := by
    intro c hc
    rcases List.mem_singleton.mp hc with rfl
    exact ⟨"boom", rfl⟩
  exact ⟨herr,
    C2_trigger_error_does_not_abort_batch errEnv 1 7 ("hi there") false false
      [greetTrigger] [byeTrigger] badRegexTrigger emptyState [] herr⟩

end UltimateTriggers
